import Mathlib

/-
Verification of the BluePyll emulator-automation library against its
natural-language specification.  The Python sources embedded here are
src/bluepyll/ui.py and src/bluepyll/controller.py; the state-machine and
app modules are absent from the source tree (only their tests and callers
remain) and are modelled from the specification where noted.
-/

/-- Modelled from the spec: the module bluepyll/state_machine.py is missing
from src (only its tests and its callers are present).  The enumeration of
emulator lifecycle states, per spec section 3: a closed set CLOSED, LOADING,
READY.  Two structurally identical enumerations exist in the source
(BluestacksState and AppLifecycleState); they share this single model. -/
inductive BluestacksState where
  | CLOSED
  | LOADING
  | READY
deriving DecidableEq, Repr

/-- The per-app lifecycle enumeration is structurally identical to the
emulator one (spec section 3), so it reuses the same inductive. -/
abbrev AppLifecycleState := BluestacksState

/-- Modelled from the spec: the fixed adjacency table of
state_machine.py (missing from src), per spec section 3: CLOSED maps to
LOADING only; LOADING maps to CLOSED or READY; READY maps to CLOSED or
LOADING.  The table is fixed and shared read-only. -/
def get_transitions : BluestacksState → List BluestacksState
  | .CLOSED => [.LOADING]
  | .LOADING => [.CLOSED, .READY]
  | .READY => [.CLOSED, .LOADING]

/-- Modelled from the spec: the StateError raised by an illegal transition
names the offending pair (spec section 4.1). -/
inductive StateError where
  | invalidTransition (fromState toState : BluestacksState)
deriving DecidableEq, Repr

/-- Modelled from the spec: the StateMachine of state_machine.py (missing
from src) owns a mutable current state and the shared transition table.
Handlers are zero-argument side-effecting callables and are not part of the
value-level model; the claims verified here concern transitions with no
handlers registered. -/
structure StateMachine where
  current_state : BluestacksState
deriving DecidableEq, Repr

/-- Modelled from the spec: transition_to of state_machine.py (missing from
src), per spec section 4.1: when ignore_validation is false and the target
is not in the table row of the current state it fails with a StateError
naming the offending pair; otherwise it sets the current state to the
target and returns the previous state. -/
def transition_to (m : StateMachine) (target : BluestacksState)
    (ignore_validation : Bool := false) :
    Except StateError (BluestacksState × StateMachine) :=
  if ¬ignore_validation ∧ target ∉ get_transitions m.current_state then
    .error (.invalidTransition m.current_state target)
  else
    .ok (m.current_state, { current_state := target })

/-- Modelled from the spec: the App record of bluepyll/app.py (missing from
src; only its tests remain).  Per spec section 3 an App owns a non-empty
name, a non-empty package identifier and its own lifecycle state machine;
equality and hash are defined over the triple (name, package identifier,
state).  The state field holds the current state of its StateMachine. -/
structure BluePyllApp where
  app_name : String
  package_name : String
  app_state : AppLifecycleState
deriving DecidableEq, Repr

/-- Modelled from the spec: the value the App hash is computed from, per
spec section 3 (hash defined over the triple of name, package identifier
and state). -/
def app_hash_key (a : BluePyllApp) : String × String × AppLifecycleState :=
  (a.app_name, a.package_name, a.app_state)

/-- A UI element descriptor, embedding the fields set by
BluePyllElement.__init__ in src/bluepyll/ui.py (lines 67 to 125).
Coordinates are Python ints; confidence is modelled exactly as a rational.
The controller back-reference is not part of the value model. -/
structure BluePyllElement where
  label : String
  ele_type : String
  og_window_size : Int × Int
  position : Option (Int × Int)
  size : Option (Int × Int)
  path : Option String
  is_static : Bool
  confidence : Option ℚ
  ele_txt : Option String
  pixel_color : Option (Int × Int × Int)
  region : Option (Int × Int × Int × Int)
  center : Option (Int × Int)
deriving DecidableEq, Repr

/-- Python str.lower restricted to ASCII, as used on labels, element types
and element text in BluePyllElement.__init__: map every character to its
lowercase form. -/
def pyLower (s : String) : String := String.mk (s.data.map Char.toLower)

/-- Embedding of BluePyllElement.__init__ (src/bluepyll/ui.py lines 67 to
125).  Field by field it mirrors the Python conditional expressions,
including truthiness tests (a None confidence or a 0.0 confidence both fall
back to 0.7; an empty ele_txt becomes None).  The region expression indexes
self.size, so a non-pixel element with a position but no size raises a
TypeError at construction, embedded as an error result.  Python floor
division in the center expression is Int.fdiv. -/
def bluePyllElementInit (label : String) (ele_type : String)
    (og_window_size : Int × Int) (position : Option (Int × Int))
    (size : Option (Int × Int)) (path : Option String) (is_static : Bool)
    (confidence : Option ℚ) (ele_txt : Option String)
    (pixel_color : Option (Int × Int × Int)) :
    Except String BluePyllElement :=
  let lbl := pyLower label
  let ty := pyLower ele_type
  let pos := position
  let sz : Option (Int × Int) :=
    if ty = "pixel" then some (1, 1) else size
  let pth : Option String := if ty = "pixel" then none else path
  let sta : Bool := if ty = "pixel" then true else is_static
  let conf : Option ℚ :=
    if ty = "pixel" ∨ ty = "text" then none
    else some (match confidence with
      | some c => if c = 0 then (7 : ℚ) / 10 else c
      | none => (7 : ℚ) / 10)
  let txt : Option String :=
    if ty = "pixel" then none
    else match ele_txt with
      | none => none
      | some t => if t = "" then none else some (pyLower t)
  let pc : Option (Int × Int × Int) :=
    if ty = "button" ∨ ty = "text" ∨ ty = "input" ∨ ty = "image" then none
    else pixel_color
  let regionRes : Except String (Option (Int × Int × Int × Int)) :=
    if ty = "pixel" ∨ pos = none then .ok none
    else match pos, sz with
      | some (x, y), some (w, h) => .ok (some (x, y, x + w, y + h))
      | _, _ => .error "TypeError: NoneType object is not subscriptable"
  match regionRes with
  | .error e => .error e
  | .ok region =>
    let ctr : Option (Int × Int) :=
      if ty = "text" then none
      else if ty = "pixel" then pos
      else match pos, sz with
        | some (x, y), some (w, h) =>
          some (x + Int.fdiv w 2, y + Int.fdiv h 2)
        | _, _ => none
    .ok { label := lbl, ele_type := ty, og_window_size := og_window_size,
          position := pos, size := sz, path := pth, is_static := sta,
          confidence := conf, ele_txt := txt, pixel_color := pc,
          region := region, center := ctr }

/-- Outcome of one iteration of the matching loop in BluePyllElement.where
(src/bluepyll/ui.py lines 240 to 279), supplied as an input trace: the
screenshot was falsy, locate returned a falsy value without raising, locate
found a box (carrying the pyautogui center of that box), locate raised
ImageNotFoundException, or the attempt raised TcpTimeoutException. -/
inductive MatchOutcome where
  | noImage
  | locNone
  | found (c : Int × Int)
  | notFoundExc
  | timeoutExc
deriving DecidableEq, Repr

/-- Result of running the where loop: the function returned a value, an
exception escaped uncaught, or the supplied fuel ran out while the loop was
still running. -/
inductive WhereResult where
  | ret (r : Option (Int × Int))
  | uncaught
  | outOfFuel
deriving DecidableEq, Repr

/-- The while condition of the matching loop (src/bluepyll/ui.py lines 236
to 240): when max_retries is not None and is greater than zero the loop
runs while the retry counter is below it, otherwise the condition is
constantly true. -/
def whereLoopCond (find_ui_retries : Nat) (max_retries : Option Int) : Bool :=
  match max_retries with
  | some m => if m > 0 then find_ui_retries < m else true
  | none => true

/-- The matching loop of BluePyllElement.where (src/bluepyll/ui.py lines
235 to 282).  A found box returns its center immediately.  A falsy
screenshot or a falsy locate result falls through without touching the
retry counter.  The except clause of the source is written as
ImageNotFoundException or TcpTimeoutException, which in Python evaluates to
ImageNotFoundException alone, so only that exception increments the retry
counter and continues; a TcpTimeoutException propagates uncaught. -/
def whereLoop (outcomes : Nat → MatchOutcome) (max_retries : Option Int) :
    Nat → Nat → Nat → WhereResult
  | 0, _, _ => .outOfFuel
  | fuel + 1, i, find_ui_retries =>
    if whereLoopCond find_ui_retries max_retries then
      match outcomes i with
      | .noImage => whereLoop outcomes max_retries fuel (i + 1) find_ui_retries
      | .locNone => whereLoop outcomes max_retries fuel (i + 1) find_ui_retries
      | .found c => .ret (some c)
      | .notFoundExc =>
        whereLoop outcomes max_retries fuel (i + 1) (find_ui_retries + 1)
      | .timeoutExc => .uncaught
    else .ret none

/-- Embedding of BluePyllElement.where (src/bluepyll/ui.py lines 217 to
282): without a path it returns None at once; with the emulator CLOSED it
returns None; with the emulator LOADING or READY it enters the matching
loop starting with a zero retry counter. -/
def bluePyllWhere (e : BluePyllElement) (bluestacks_state : BluestacksState)
    (outcomes : Nat → MatchOutcome) (max_retries : Option Int)
    (fuel : Nat) : WhereResult :=
  if e.path = none then .ret none
  else match bluestacks_state with
    | .CLOSED => .ret none
    | .LOADING | .READY => whereLoop outcomes max_retries fuel 0 0

/-- The nested helper check_color_with_tolerance of check_pixel_color
(src/bluepyll/ui.py lines 172 to 176): every channel difference is within
the tolerance, inclusive. -/
def check_color_with_tolerance (color1 color2 : Int × Int × Int)
    (tolerance : Int) : Bool :=
  decide (|color1.1 - color2.1| ≤ tolerance ∧
    |color1.2.1 - color2.2.1| ≤ tolerance ∧
    |color1.2.2 - color2.2.2| ≤ tolerance)

/-- Embedding of BluePyllElement.check_pixel_color (src/bluepyll/ui.py
lines 164 to 215).  The source overwrites the target_color parameter with
self.pixel_color before any use, so the parameter is dead.  A None center
or a None pixel_color hits a len() call on None, a TypeError that the
final except clause rewraps as a ValueError; a negative tolerance raises a
ValueError directly.  The image is modelled as a total pixel map. -/
def check_pixel_color (e : BluePyllElement)
    (target_color : Option (Int × Int × Int))
    (image : Int × Int → Int × Int × Int) (tolerance : Int) :
    Except String Bool :=
  match e.center with
  | none => .error "ValueError"
  | some coords =>
    match e.pixel_color with
    | none => .error "ValueError"
    | some target =>
      if tolerance < 0 then .error "ValueError"
      else .ok (check_color_with_tolerance (image coords) target tolerance)

/-- The controller fields the verified claims touch: the emulator state
machine current state, the running-apps list, and whether connect_adb
succeeds (the transport availability outcome, a black box per the spec).
App records in the list are modelled by value. -/
structure ControllerState where
  bluestacks_state : BluestacksState
  running_apps : List BluePyllApp
  adb_ok : Bool
deriving DecidableEq, Repr

/-- The retry loop of BluePyllController.is_app_running
(src/bluepyll/controller.py lines 496 to 518).  Each list entry is one
shell attempt: some output string, or none when the shell call raised.
The loop-carried prevOutput models the Python local variable output, which
keeps its previous value across an except branch and is unbound (none)
when the very first attempt raises; referencing it unbound is a NameError
that the outer except swallows, returning False. -/
def isAppRunningLoop (attempts : List (Option String))
    (prevOutput : Option String) : Option Bool :=
  match attempts with
  | [] => some false
  | a :: rest =>
    match a with
    | some s => if s ≠ "" then some true else isAppRunningLoop rest (some s)
    | none =>
      match prevOutput with
      | none => some false
      | some s => if s ≠ "" then some true else isAppRunningLoop rest (some s)

/-- Embedding of BluePyllController.is_app_running
(src/bluepyll/controller.py lines 471 to 521).  When the emulator state is
CLOSED or LOADING the source executes a bare return, so the call yields
None, modelled as none.  When READY but connect_adb fails it returns
False.  Otherwise it runs the retry loop; the attempts list has one entry
per retry, so its length plays the role of max_retries. -/
def is_app_running (c : ControllerState) (app : BluePyllApp)
    (attempts : List (Option String)) : Option Bool :=
  match c.bluestacks_state with
  | .CLOSED | .LOADING => none
  | .READY =>
    if ¬c.adb_ok then some false
    else isAppRunningLoop attempts none

/-- The timeout polling loop of BluePyllController.open_app
(src/bluepyll/controller.py lines 450 to 469).  Each iteration issues the
monkey launch shell command (recorded in the trace) and consults the
is_app_running oracle; on True it drives the app state machine to LOADING
(which raises StateError when LOADING is not reachable from the current
app state) and appends the app to running_apps with no duplicate check; on
False it sleeps and repeats until the timeout (fuel) expires, which only
logs a warning. -/
def openAppLoop (c : ControllerState) (app : BluePyllApp)
    (running : Nat → Bool) :
    Nat → Nat → List String →
    List String × Except StateError (ControllerState × BluePyllApp)
  | 0, _, trace => (trace, .ok (c, app))
  | fuel + 1, i, trace =>
    let trace := trace ++ ["monkey -p " ++ app.package_name ++ " -v 1"]
    if running i then
      if BluestacksState.LOADING ∈ get_transitions app.app_state then
        let app' := { app with app_state := .LOADING }
        (trace,
          .ok ({ c with running_apps := c.running_apps ++ [app'] }, app'))
      else (trace, .error (.invalidTransition app.app_state .LOADING))
    else openAppLoop c app running fuel (i + 1) trace

/-- Embedding of BluePyllController.open_app (src/bluepyll/controller.py
lines 429 to 469): with the emulator CLOSED or LOADING it warns and
returns with nothing changed and no shell command issued; with READY but a
failed connection it likewise returns unchanged; otherwise it runs the
polling loop.  The result pairs the trace of issued shell commands with
either a StateError or the updated controller and app. -/
def open_app (c : ControllerState) (app : BluePyllApp)
    (running : Nat → Bool) (fuel : Nat) :
    List String × Except StateError (ControllerState × BluePyllApp) :=
  match c.bluestacks_state with
  | .CLOSED | .LOADING => ([], .ok (c, app))
  | .READY =>
    if ¬c.adb_ok then ([], .ok (c, app))
    else openAppLoop c app running fuel 0 []

/-- The timeout polling loop of BluePyllController.close_app
(src/bluepyll/controller.py lines 543 to 564).  Each iteration issues the
force-stop shell command and consults the is_app_running oracle; on False
it drives the app state machine to CLOSED (raising StateError when CLOSED
is not reachable) and filters the app out of running_apps by value
equality against the already-updated app; on True it sleeps and repeats
until the timeout (fuel) expires, which only logs a warning. -/
def closeAppLoop (c : ControllerState) (app : BluePyllApp)
    (running : Nat → Bool) :
    Nat → Nat → List String →
    List String × Except StateError (ControllerState × BluePyllApp)
  | 0, _, trace => (trace, .ok (c, app))
  | fuel + 1, i, trace =>
    let trace := trace ++ ["am force-stop " ++ app.package_name]
    if running i then closeAppLoop c app running fuel (i + 1) trace
    else
      if BluestacksState.CLOSED ∈ get_transitions app.app_state then
        let app' := { app with app_state := .CLOSED }
        (trace,
          .ok ({ c with running_apps :=
                  c.running_apps.filter (fun a => a ≠ app') }, app'))
      else (trace, .error (.invalidTransition app.app_state .CLOSED))

/-- Embedding of BluePyllController.close_app (src/bluepyll/controller.py
lines 523 to 564): with the emulator CLOSED or LOADING it warns and
returns with nothing changed; with READY but a failed connection it
likewise returns unchanged; otherwise it runs the polling loop. -/
def close_app (c : ControllerState) (app : BluePyllApp)
    (running : Nat → Bool) (fuel : Nat) :
    List String × Except StateError (ControllerState × BluePyllApp) :=
  match c.bluestacks_state with
  | .CLOSED | .LOADING => ([], .ok (c, app))
  | .READY =>
    if ¬c.adb_ok then ([], .ok (c, app))
    else closeAppLoop c app running fuel 0 []

/-- A Python value that is either an int or a str, the two argument types
the ref_window_size setter considers. -/
inductive PyVal where
  | int (n : Int)
  | str (s : String)
deriving DecidableEq, Repr

/-- Python str.isdigit restricted to ASCII: the string is non-empty and
every character is a decimal digit. -/
def pyIsdigit (s : String) : Bool :=
  s.length > 0 && s.toList.all Char.isDigit

/-- Python int() applied to a digit-only string. -/
def digitsToInt (s : String) : Int :=
  s.toList.foldl (fun n c => 10 * n + (Int.ofNat c.toNat - Int.ofNat '0'.toNat)) 0

/-- One dimension check of the ref_window_size setter
(src/bluepyll/controller.py lines 96 to 126).  An int argument skips every
check, including the positivity check, because the whole block is guarded
by not isinstance(value, int).  A digit string is converted and must then
be positive; any other string raises the must-be-integer ValueError.  The
first returned string is the positive-integers error message, the second
the integer-or-string-representation one. -/
def refWindowSizeCheckDim (v : PyVal) : Except String Int :=
  match v with
  | .int n => .ok n
  | .str s =>
    if pyIsdigit s then
      let n := digitsToInt s
      if n ≤ 0 then .error "Provided value must be positive integers"
      else .ok n
    else .error "Provided value must be integer or the string representation of an integer"

/-- Embedding of the body of the ref_window_size setter
(src/bluepyll/controller.py lines 93 to 128): the width checks run first
and short-circuit, then the height checks, then the pair is stored.  Note
that the Python property machinery can never actually reach this body with
two arguments: the setter is declared with separate width and height
parameters, while property assignment passes the assigned value as the
single width argument, so every assignment raises a TypeError for the
missing height argument before this body completes. -/
def refWindowSizeSetterBody (width height : PyVal) :
    Except String (Int × Int) := do
  let w ← refWindowSizeCheckDim width
  let h ← refWindowSizeCheckDim height
  .ok (w, h)

/-- C1: over the fixed adjacency table (CLOSED to LOADING only; LOADING to
CLOSED or READY; READY to CLOSED or LOADING), transition_to without
override fails with a StateError naming the pair exactly when the target
is not in the table row of the current state; with ignore_validation it
always succeeds, sets the current state to the target and returns the
state held before the call; no state transitions to itself and CLOSED
never goes directly to READY. -/
theorem transition_to_table_spec :
    ∀ s t : BluestacksState,
      (transition_to { current_state := s } t false =
          .error (.invalidTransition s t) ↔ t ∉ get_transitions s) ∧
      transition_to { current_state := s } t true =
        .ok (s, { current_state := t }) ∧
      s ∉ get_transitions s ∧
      BluestacksState.READY ∉ get_transitions BluestacksState.CLOSED := by
  intro s t
  cases s <;> cases t <;>
    refine ⟨?_, rfl, ?_, ?_⟩ <;> simp [transition_to, get_transitions]

/-- C8: two App records with identical name and package identifier but
different lifecycle states compare unequal and their hash keys differ;
with identical name, package identifier and state they compare equal and
their hash keys agree. -/
theorem app_equality_hash_spec :
    ∀ a b : BluePyllApp,
      (a.app_name = b.app_name → a.package_name = b.package_name →
        a.app_state ≠ b.app_state →
        a ≠ b ∧ app_hash_key a ≠ app_hash_key b) ∧
      (a.app_name = b.app_name → a.package_name = b.package_name →
        a.app_state = b.app_state →
        a = b ∧ app_hash_key a = app_hash_key b) := by
  intro a b
  obtain ⟨an, ap, as⟩ := a
  obtain ⟨bn, bp, bs⟩ := b
  constructor
  · intro h1 h2 h3
    constructor
    · intro hcon
      exact h3 (congrArg BluePyllApp.app_state hcon)
    · intro hcon
      simp only [app_hash_key, Prod.mk.injEq] at hcon
      exact h3 hcon.2.2
  · intro h1 h2 h3
    subst h1; subst h2; subst h3
    exact ⟨rfl, rfl⟩

/-- Witness for C8 at concrete App records: same name and package with
states LOADING and CLOSED are unequal with distinct hash keys; two records
with all three components equal are equal with equal hash keys. -/
theorem app_equality_hash_spec_witness :
    ((⟨"TestApp", "com.test.app", .LOADING⟩ : BluePyllApp) ≠
        ⟨"TestApp", "com.test.app", .CLOSED⟩ ∧
      app_hash_key ⟨"TestApp", "com.test.app", .LOADING⟩ ≠
        app_hash_key ⟨"TestApp", "com.test.app", .CLOSED⟩) ∧
    ((⟨"TestApp", "com.test.app", .CLOSED⟩ : BluePyllApp) =
        ⟨"TestApp", "com.test.app", .CLOSED⟩ ∧
      app_hash_key ⟨"TestApp", "com.test.app", .CLOSED⟩ =
        app_hash_key ⟨"TestApp", "com.test.app", .CLOSED⟩) :=
  ⟨(app_equality_hash_spec ⟨"TestApp", "com.test.app", .LOADING⟩
      ⟨"TestApp", "com.test.app", .CLOSED⟩).1 rfl rfl (by decide),
    (app_equality_hash_spec ⟨"TestApp", "com.test.app", .CLOSED⟩
      ⟨"TestApp", "com.test.app", .CLOSED⟩).2 rfl rfl rfl⟩

/-- C4: constructing an element with ele_type pixel, whatever the other
constructor arguments, always succeeds and yields size (1, 1), no path,
is_static true, no confidence, and a center equal to its position. -/
theorem pixel_element_roundtrip_spec
    (label : String) (og_window_size : Int × Int)
    (position size : Option (Int × Int)) (path : Option String)
    (is_static : Bool) (confidence : Option ℚ) (ele_txt : Option String)
    (pixel_color : Option (Int × Int × Int)) :
    (bluePyllElementInit label "pixel" og_window_size position size path
        is_static confidence ele_txt pixel_color).map
      (fun e => (e.size, e.path, e.is_static, e.confidence)) =
      .ok (some (1, 1), none, true, none) ∧
    (bluePyllElementInit label "pixel" og_window_size position size path
        is_static confidence ele_txt pixel_color).map (fun e => e.center) =
      (bluePyllElementInit label "pixel" og_window_size position size path
        is_static confidence ele_txt pixel_color).map (fun e => e.position) :=
  ⟨rfl, rfl⟩

/-- C3 counterexample: a pixel element constructed with a position has both
position and size set (size is forced to (1, 1)) yet its region is None,
because the region expression in the source excludes the pixel type
outright; the claim would require region (5, 6, 6, 7). -/
theorem region_pixel_counterexample :
    (bluePyllElementInit "dot" "pixel" (1920, 1080) (some (5, 6)) none none
        true none none none).map (fun e => (e.position, e.size, e.region)) =
      .ok (some (5, 6), some (1, 1), none) := rfl

/-- C3 amended: for every successfully constructed element, a non-pixel
element with both position and size set has region
(x, y, x + w, y + h); an element lacking position or size has region None;
and a pixel element always has region None even though its position and
size may both be set. -/
theorem region_spec_amended (label ele_type : String) (og : Int × Int)
    (position size : Option (Int × Int)) (path : Option String)
    (is_static : Bool) (confidence : Option ℚ) (ele_txt : Option String)
    (pixel_color : Option (Int × Int × Int)) (e : BluePyllElement)
    (h : bluePyllElementInit label ele_type og position size path is_static
      confidence ele_txt pixel_color = .ok e) :
    (∀ x y w v, e.ele_type ≠ "pixel" → e.position = some (x, y) →
      e.size = some (w, v) → e.region = some (x, y, x + w, y + v)) ∧
    (e.position = none ∨ e.size = none → e.region = none) ∧
    (e.ele_type = "pixel" → e.region = none) := by
  simp only [bluePyllElementInit] at h
  by_cases hty : pyLower ele_type = "pixel"
  · rw [if_pos (Or.inl hty)] at h
    simp only [Except.ok.injEq] at h
    subst h
    simp only [hty]
    refine ⟨?_, ?_, ?_⟩
    · intro x y w v hne
      exact absurd rfl hne
    · intro _; trivial
    · intro _; trivial
  · by_cases hpos : position = none
    · rw [if_pos (Or.inr hpos)] at h
      simp only [Except.ok.injEq] at h
      subst h
      refine ⟨?_, ?_, ?_⟩
      · intro x y w v _ hp
        rw [hpos] at hp
        exact absurd hp (by simp)
      · intro _; trivial
      · intro hpix
        exact absurd hpix hty
    · rw [if_neg (by intro hcon; rcases hcon with hc | hc; exact hty hc; exact hpos hc),
        if_neg hty] at h
      obtain ⟨⟨px, py⟩, rfl⟩ := Option.ne_none_iff_exists'.mp hpos
      rcases size with _ | ⟨w0, v0⟩
      · exact absurd h (by simp)
      · simp only [Except.ok.injEq] at h
        subst h
        refine ⟨?_, ?_, ?_⟩
        · intro x y w v _ hp hs
          simp only [Option.some.injEq, Prod.mk.injEq] at hp hs
          obtain ⟨rfl, rfl⟩ := hp
          obtain ⟨rfl, rfl⟩ := hs
          rfl
        · intro hcon
          rcases hcon with hc | hc <;> exact absurd hc (by simp)
        · intro hpix
          exact absurd hpix hty

/-- Witness for the amended C3 at a concrete button element with position
(1, 2) and size (3, 4): its region is (1, 2, 4, 6). -/
theorem region_spec_amended_witness :
    ({ label := "btn", ele_type := "button", og_window_size := (10, 10),
       position := some (1, 2), size := some (3, 4), path := none,
       is_static := true, confidence := some ((7 : ℚ) / 10),
       ele_txt := none, pixel_color := none,
       region := some (1, 2, 4, 6), center := some (2, 4) } :
      BluePyllElement).region = some (1, 2, 4, 6) :=
  (region_spec_amended "btn" "button" (10, 10) (some (1, 2)) (some (3, 4))
      none true none none none _ rfl).1 1 2 3 4 (by decide) rfl rfl

/-- C9: for a pixel-type element, check_pixel_color compares the sampled
pixel against the element pixel_color field, never against the passed
target_color argument (the source overwrites the parameter before use, so
any two argument values give identical results); and when pixel_color is
None the call raises a ValueError whatever the arguments. -/
theorem check_pixel_color_spec (e : BluePyllElement)
    (target_color : Option (Int × Int × Int))
    (image : Int × Int → Int × Int × Int) (tolerance : Int)
    (hpix : e.ele_type = "pixel") :
    (e.pixel_color = none →
      check_pixel_color e target_color image tolerance =
        .error "ValueError") ∧
    (∀ other : Option (Int × Int × Int),
      check_pixel_color e target_color image tolerance =
        check_pixel_color e other image tolerance) ∧
    (∀ c pc, e.center = some c → e.pixel_color = some pc → 0 ≤ tolerance →
      check_pixel_color e target_color image tolerance =
        .ok (check_color_with_tolerance (image c) pc tolerance)) := by
  refine ⟨?_, ?_, ?_⟩
  · intro hnone
    unfold check_pixel_color
    cases e.center with
    | none => rfl
    | some coords => rw [hnone]
  · intro other
    rfl
  · intro c pc hc hpc ht
    unfold check_pixel_color
    rw [hc, hpc]
    dsimp only
    rw [if_neg (not_lt.mpr ht)]

/-- Witness for C9 at a concrete pixel element whose stored color is
(10, 20, 30) on an image whose every pixel is (10, 20, 30): the check
succeeds with tolerance 0. -/
theorem check_pixel_color_spec_witness :
    check_pixel_color
      { label := "dot", ele_type := "pixel", og_window_size := (10, 10),
        position := some (0, 0), size := some (1, 1), path := none,
        is_static := true, confidence := none, ele_txt := none,
        pixel_color := some (10, 20, 30), region := none,
        center := some (0, 0) }
      none (fun _ => (10, 20, 30)) 0 =
      .ok (check_color_with_tolerance (10, 20, 30) (10, 20, 30) 0) :=
  (check_pixel_color_spec _ none (fun _ => (10, 20, 30)) 0 rfl).2.2
    (0, 0) (10, 20, 30) rfl rfl (le_refl 0)

/-- C2: the claim says a transport-timeout raised during template matching
increments the retry count and continues the loop, but the except clause
in the source is written as ImageNotFoundException or TcpTimeoutException,
which Python evaluates to ImageNotFoundException alone, so a
TcpTimeoutException propagates uncaught out of where.  At the failing
input (emulator READY, path set, max_retries 2, first attempt raising the
transport timeout) the call raises instead of retrying, while the same
element with ImageNotFoundException outcomes retries twice and returns
None, and with max_retries 0 or None the loop condition is constantly
true so retries are never exhausted. -/
theorem where_timeout_uncaught :
    bluePyllWhere
      { label := "img", ele_type := "image", og_window_size := (1920, 1080),
        position := none, size := none, path := some "a.png",
        is_static := false, confidence := some ((6 : ℚ) / 10),
        ele_txt := none, pixel_color := none, region := none,
        center := none }
      .READY (fun _ => .timeoutExc) (some 2) 10 = .uncaught ∧
    bluePyllWhere
      { label := "img", ele_type := "image", og_window_size := (1920, 1080),
        position := none, size := none, path := some "a.png",
        is_static := false, confidence := some ((6 : ℚ) / 10),
        ele_txt := none, pixel_color := none, region := none,
        center := none }
      .READY (fun _ => .notFoundExc) (some 2) 10 = .ret none ∧
    (∀ r : Nat, whereLoopCond r (some 0) = true) ∧
    (∀ r : Nat, whereLoopCond r none = true) :=
  ⟨rfl, rfl, fun _ => rfl, fun _ => rfl⟩

/-- Helper for C5: on a run of shell attempts none of which raises, the
retry loop of is_app_running answers true exactly when some attempt
returned non-empty output, and false exactly when every attempt returned
empty output. -/
theorem isAppRunningLoop_ok (attempts : List (Option String))
    (prev : Option String) (h : ∀ a ∈ attempts, a ≠ none) :
    (isAppRunningLoop attempts prev = some true ↔
      ∃ s, some s ∈ attempts ∧ s ≠ "") ∧
    (isAppRunningLoop attempts prev = some false ↔
      ∀ s, some s ∈ attempts → s = "") := by
  induction attempts generalizing prev with
  | nil => simp [isAppRunningLoop]
  | cons a rest ih =>
    rcases a with _ | s
    · exact absurd rfl (h none (List.mem_cons_self _ _))
    · have hrest : ∀ x ∈ rest, x ≠ none :=
        fun x hx => h x (List.mem_cons_of_mem _ hx)
      by_cases hs : s = ""
      · subst hs
        rw [show isAppRunningLoop (some "" :: rest) prev =
            isAppRunningLoop rest (some "") from by simp [isAppRunningLoop]]
        refine ⟨((ih (some "") hrest).1).trans ?_,
          ((ih (some "") hrest).2).trans ?_⟩
        · constructor
          · rintro ⟨t, hm, hne⟩
            exact ⟨t, List.mem_cons_of_mem _ hm, hne⟩
          · rintro ⟨t, hm, hne⟩
            rcases List.mem_cons.mp hm with he | hm2
            · exact absurd (Option.some.inj he) hne
            · exact ⟨t, hm2, hne⟩
        · constructor
          · intro hall t hm
            rcases List.mem_cons.mp hm with he | hm2
            · exact Option.some.inj he
            · exact hall t hm2
          · intro hall t hm
            exact hall t (List.mem_cons_of_mem _ hm)
      · rw [show isAppRunningLoop (some s :: rest) prev = some true from by
            simp [isAppRunningLoop, hs]]
        constructor
        · constructor
          · intro _
            exact ⟨s, List.mem_cons_self _ _, hs⟩
          · intro _
            rfl
        · constructor
          · intro hcon
            exact absurd hcon (by simp)
          · intro hall
            exact absurd (hall s (List.mem_cons_self _ _)) hs

/-- C5 counterexample: with the emulator CLOSED, is_app_running executes a
bare return and yields None rather than any boolean, even when the shell
attempt would have produced non-empty output containing the focus marker,
refuting the claim that the call always returns a boolean. -/
theorem is_app_running_counterexample :
    is_app_running
      { bluestacks_state := .CLOSED, running_apps := [], adb_ok := true }
      { app_name := "TestApp", package_name := "com.test.app",
        app_state := .CLOSED }
      [some "mCurrentFocus"] = none := rfl

/-- C5 amended: when the emulator is CLOSED or LOADING, is_app_running
warns and returns None, not a boolean; when READY with a working
connection and no shell attempt raising, it returns True exactly when some
attempt within max_retries (the length of the attempts list) produced
non-empty output, and False exactly when every attempt produced empty
output. -/
theorem is_app_running_spec_amended (c : ControllerState)
    (app : BluePyllApp) (attempts : List (Option String)) :
    ((c.bluestacks_state = .CLOSED ∨ c.bluestacks_state = .LOADING) →
      is_app_running c app attempts = none) ∧
    (c.bluestacks_state = .READY → c.adb_ok = true →
      (∀ a ∈ attempts, a ≠ none) →
      ((is_app_running c app attempts = some true ↔
          ∃ s, some s ∈ attempts ∧ s ≠ "") ∧
        (is_app_running c app attempts = some false ↔
          ∀ s, some s ∈ attempts → s = ""))) := by
  obtain ⟨bs, ra, ok⟩ := c
  constructor
  · rintro (h | h) <;> (subst h; rfl)
  · intro hbs hok hatt
    subst hbs
    subst hok
    simp only [is_app_running, not_true_eq_false, if_false]
    exact isAppRunningLoop_ok attempts none hatt

/-- Witness for the amended C5: a CLOSED controller yields None, and a
READY connected controller whose single attempt returns the focus marker
yields True. -/
theorem is_app_running_spec_amended_witness :
    is_app_running
      { bluestacks_state := .CLOSED, running_apps := [], adb_ok := true }
      { app_name := "TestApp", package_name := "com.test.app",
        app_state := .CLOSED } [] = none ∧
    is_app_running
      { bluestacks_state := .READY, running_apps := [], adb_ok := true }
      { app_name := "TestApp", package_name := "com.test.app",
        app_state := .CLOSED }
      [some "mCurrentFocus"] = some true :=
  ⟨(is_app_running_spec_amended _ _ _).1 (Or.inl rfl),
    ((is_app_running_spec_amended _ _ _).2 rfl rfl (by simp)).1.mpr
      ⟨"mCurrentFocus", by simp, by decide⟩⟩

/-- C6: with the emulator CLOSED or LOADING, open_app and close_app are
silent no-ops: no shell command is issued (empty trace), nothing is
raised, and both the running_apps list and the app state machine are
returned unchanged. -/
theorem open_close_app_noop (c : ControllerState) (app : BluePyllApp)
    (running : Nat → Bool) (fuel : Nat)
    (h : c.bluestacks_state = .CLOSED ∨ c.bluestacks_state = .LOADING) :
    open_app c app running fuel = ([], .ok (c, app)) ∧
    close_app c app running fuel = ([], .ok (c, app)) := by
  obtain ⟨bs, ra, ok⟩ := c
  simp only at h
  rcases h with h | h <;> (subst h; exact ⟨rfl, rfl⟩)

/-- Witness for C6 at a concrete CLOSED controller and CLOSED app. -/
theorem open_close_app_noop_witness :
    open_app
      { bluestacks_state := .CLOSED, running_apps := [], adb_ok := true }
      { app_name := "TestApp", package_name := "com.test.app",
        app_state := .CLOSED }
      (fun _ => true) 5 =
      ([], .ok
        ({ bluestacks_state := .CLOSED, running_apps := [], adb_ok := true },
          { app_name := "TestApp", package_name := "com.test.app",
            app_state := .CLOSED })) ∧
    close_app
      { bluestacks_state := .CLOSED, running_apps := [], adb_ok := true }
      { app_name := "TestApp", package_name := "com.test.app",
        app_state := .CLOSED }
      (fun _ => true) 5 =
      ([], .ok
        ({ bluestacks_state := .CLOSED, running_apps := [], adb_ok := true },
          { app_name := "TestApp", package_name := "com.test.app",
            app_state := .CLOSED })) :=
  open_close_app_noop _ _ _ _ (Or.inl rfl)

/-- C10: opening an app that is already running is not a no-op.  With the
emulator READY and a working connection, when the polled app is observed
running on the first iteration and its own state machine is already
LOADING, open_app raises the StateError for the LOADING to LOADING
transition after the monkey launch command has already been issued (the
trace holds it); and on the success path (app state CLOSED) the app is
appended to running_apps unconditionally, with no duplicate check. -/
theorem open_app_second_call_spec :
    (∀ (c : ControllerState) (app : BluePyllApp) (running : Nat → Bool)
      (fuel : Nat),
      c.bluestacks_state = .READY → c.adb_ok = true →
      app.app_state = .LOADING → running 0 = true →
      open_app c app running (fuel + 1) =
        (["monkey -p " ++ app.package_name ++ " -v 1"],
          .error (.invalidTransition .LOADING .LOADING))) ∧
    (∀ (c : ControllerState) (app : BluePyllApp) (running : Nat → Bool)
      (fuel : Nat),
      c.bluestacks_state = .READY → c.adb_ok = true →
      app.app_state = .CLOSED → running 0 = true →
      open_app c app running (fuel + 1) =
        (["monkey -p " ++ app.package_name ++ " -v 1"],
          .ok ({ c with running_apps :=
                  c.running_apps ++ [{ app with app_state := .LOADING }] },
            { app with app_state := .LOADING }))) := by
  constructor <;>
  · intro c app running fuel hS hA hL hr
    obtain ⟨bs, ra, ok⟩ := c
    obtain ⟨an, pn, ast⟩ := app
    simp only at hS hA hL
    subst hS; subst hA; subst hL
    simp [open_app, openAppLoop, hr, get_transitions]

/-- Witness for C10: a READY connected controller opening an app whose
state machine is already LOADING raises the LOADING to LOADING StateError
with the launch command already issued, and opening a CLOSED-state app
that is already listed in running_apps appends a second copy. -/
theorem open_app_second_call_spec_witness :
    open_app
      { bluestacks_state := .READY, running_apps := [], adb_ok := true }
      { app_name := "TestApp", package_name := "com.test.app",
        app_state := .LOADING }
      (fun _ => true) 1 =
      (["monkey -p " ++ "com.test.app" ++ " -v 1"],
        .error (.invalidTransition .LOADING .LOADING)) ∧
    open_app
      { bluestacks_state := .READY,
        running_apps :=
          [{ app_name := "TestApp",
             package_name := "com.test.app", app_state := .LOADING }],
        adb_ok := true }
      { app_name := "TestApp", package_name := "com.test.app",
        app_state := .CLOSED }
      (fun _ => true) 1 =
      (["monkey -p " ++ "com.test.app" ++ " -v 1"],
        .ok
          ({ bluestacks_state := .READY,
             running_apps :=
              [{ app_name := "TestApp", package_name := "com.test.app",
                 app_state := .LOADING }] ++
                [{ app_name := "TestApp", package_name := "com.test.app",
                   app_state := .LOADING }],
             adb_ok := true },
            { app_name := "TestApp", package_name := "com.test.app",
              app_state := .LOADING })) :=
  ⟨open_app_second_call_spec.1 _ _ _ 0 rfl rfl rfl rfl,
    open_app_second_call_spec.2 _ _ _ 0 rfl rfl rfl rfl⟩

/-- C7: the claim says a negative width raises a validation error, but the
setter body only performs the positivity check inside the branch for
string arguments, so the integer width -100 is accepted and stored
unchecked, while the digit string 0 does reach the positivity check; the
repository test suite expects a ValueError for (-100, 1080), which the
code cannot produce (property assignment would in fact raise a TypeError
first, since the setter declares two parameters). -/
theorem ref_window_size_negative_accepted :
    refWindowSizeSetterBody (.int (-100)) (.int 1080) = .ok (-100, 1080) ∧
    refWindowSizeSetterBody (.str "0") (.int 1080) =
      .error "Provided value must be positive integers" :=
  ⟨rfl, rfl⟩
